import Mathlib

/-!
Shallow embedding of the SIT signal-transport layer:
`SocketSignal` (src/ssti/socksigs.hpp), `ZMQSignal` (src/ssti/zmqsigs.hpp)
and the logic-simulation driver loop
(src/examples/unit/blackboxes/galois_sock_driver.cpp).

C++ byte strings (`std::string`, `char` buffers) are modelled as `List Nat`
(byte values); machine `size_t` casts are modelled as `% 2 ^ 64` on `Int`;
system calls (`bind`, `listen`, `accept`, `connect`, `read`, `write`,
`perror`) are modelled as emitted events, with their integer results drawn
from an environment record so that both success and failure runs are covered.
-/

namespace SIT

/-- The `BUFSIZE` macro from socksigs.hpp (default value 5). -/
def BUFSIZE : Nat := 5

/-- Capacity of `sockaddr_un.sun_path` on Linux: 108 bytes. -/
def SUN_PATH_CAP : Nat := 108

/-- Number of values of the C `size_t` type on a 64-bit platform. -/
def SIZE_T_MOD : Nat := 2 ^ 64

/-- The C cast `static_cast<size_t>(r)` for a signed value `r`: two's-complement
wraparound into `[0, 2^64)`. -/
def toSizeT (r : Int) : Nat := (r % (SIZE_T_MOD : Int)).toNat

/-- The byte string a C `char` buffer denotes when read as a C string:
its bytes up to (excluding) the first NUL byte.  Models `m_data = m_buf;`. -/
def cString (l : List Nat) : List Nat := l.takeWhile (fun b => b ≠ 0)

/-- Observable operations performed by `SocketSignal` on the operating
system: socket-setup calls, error reports, and data transfer. -/
inductive SockOp where
  | perrorOp (msg : String)
  | bindOp
  | listenOp (backlog : Nat)
  | acceptOp
  | connectOp
  | writeOp (fd : Int) (count : Nat)
  deriving DecidableEq, Repr

/-- Is this operation a `perror` report (as opposed to a socket call)? -/
def SockOp.isPerror : SockOp → Bool
  | SockOp.perrorOp _ => true
  | _ => false

/-- Results the operating system returns for each setup call; negative
values are failures, exactly as the source tests them with `< 0`. -/
structure SockEnv where
  bindRes : Int
  listenRes : Int
  acceptRes : Int
  connectRes : Int
  deriving DecidableEq, Repr

/-- The member state of a `SocketSignal` object:
`m_server_side`, `m_socket`, `m_rd_socket`, `m_rd_bytes`, `m_buf`
(capacity `BUFSIZE`), the inherited `m_data` string, and the
`m_addr.sun_path` contents. -/
structure SocketState where
  m_server_side : Bool
  m_socket : Int
  m_rd_socket : Int
  m_rd_bytes : Nat
  m_buf : List Nat
  m_data : List Nat
  sun_path : List Nat
  deriving DecidableEq, Repr

/-- The `SocketSignal(int socket, bool server_side)` constructor:
`m_rd_socket(0), m_rd_bytes(0), m_buf(""), m_addr({})`. -/
def SocketSignal.mkState (socket : Int) (server_side : Bool) : SocketState :=
  { m_server_side := server_side, m_socket := socket, m_rd_socket := 0,
    m_rd_bytes := 0, m_buf := List.replicate BUFSIZE 0, m_data := [],
    sun_path := [] }

/-- Model of `SocketSignal::set_addr(addr)`: reports a negative `m_socket`, copies
`addr` into `sun_path` by an unguarded `strcpy`, then on the server side
does `bind`, `listen(5)`, `accept` (storing the accept result into
`m_rd_socket`), and on the client side does `connect`; every failing call
is reported by `perror` and execution continues with the next statement.
Returns the new state and the emitted operation trace. -/
def SocketSignal.set_addr (env : SockEnv) (s : SocketState) (addr : List Nat) :
    SocketState × List SockOp :=
  if s.m_server_side then
    ({ s with sun_path := addr, m_rd_socket := env.acceptRes },
      (if s.m_socket < 0 then [SockOp.perrorOp "Socket creation\n"] else []) ++
      [SockOp.bindOp] ++
      (if env.bindRes < 0 then [SockOp.perrorOp "Bind failed\n"] else []) ++
      [SockOp.listenOp 5] ++
      (if env.listenRes < 0 then [SockOp.perrorOp "Socket listen\n"] else []) ++
      [SockOp.acceptOp] ++
      (if env.acceptRes < 0 then [SockOp.perrorOp "Accept failed\n"] else []))
  else
    ({ s with sun_path := addr },
      (if s.m_socket < 0 then [SockOp.perrorOp "Socket creation\n"] else []) ++
      [SockOp.connectOp] ++
      (if env.connectRes < 0 then [SockOp.perrorOp "Connection failed\n"] else []))

/-- Model of `SocketSignal::send()`: a single `write` of `m_data.size()` bytes to
`m_rd_socket` on the server side and to `m_socket` on the client side. -/
def SocketSignal.send (s : SocketState) : List SockOp :=
  [SockOp.writeOp (if s.m_server_side then s.m_rd_socket else s.m_socket)
    s.m_data.length]

/-- Effect of one `SocketSignal::recv()` call: the updated object state,
the descriptor read from, the capacity passed to `read`, and the index at
which `m_buf[m_rd_bytes] = '\0'` is written. -/
structure RecvEff where
  state : SocketState
  fd : Int
  readCount : Nat
  termIndex : Nat
  deriving DecidableEq, Repr

/-- Model of `SocketSignal::recv()`: `read(fd, m_buf, BUFSIZE)` returns `readRes`
(`-1` on failure, else the number of bytes deposited from the stream
`incoming`), the result is cast to `size_t` into `m_rd_bytes`, then
`m_buf[m_rd_bytes] = '\0'` and `m_data = m_buf`.  The out-of-bounds case
of that store (undefined behaviour in C) is tracked by `termIndex`; the
in-model buffer update uses `List.set`, which is the C behaviour whenever
`termIndex` is in bounds. -/
def SocketSignal.recv (readRes : Int) (incoming : List Nat) (s : SocketState) :
    RecvEff :=
  let n : Nat := toSizeT readRes
  let got : Nat := if 0 ≤ readRes then min readRes.toNat BUFSIZE else 0
  let buf1 : List Nat := incoming.take got ++ s.m_buf.drop got
  let buf2 : List Nat := buf1.set n 0
  { state := { s with m_rd_bytes := n, m_buf := buf2, m_data := cString buf2 },
    fd := if s.m_server_side then s.m_rd_socket else s.m_socket,
    readCount := BUFSIZE,
    termIndex := n }

/-- The member state of a `ZMQSignal` object: `m_server_side`,
`m_buf_size`, the inherited `m_data` string, and the heap buffer `_buf`
of allocated size `m_buf_size`. -/
structure ZMQState where
  m_server_side : Bool
  m_buf_size : Nat
  m_data : List Nat
  _buf : List Nat
  deriving DecidableEq, Repr

/-- The `ZMQSignal(int buf_size, bool server_side)` constructor:
`_buf = new char[buf_size]` (contents modelled as zero). -/
def ZMQSignal.mkState (buf_size : Nat) (server_side : Bool) : ZMQState :=
  { m_server_side := server_side, m_buf_size := buf_size, m_data := [],
    _buf := List.replicate buf_size 0 }

/-- The single channel-orientation operation a `ZMQSignal::set_addr` call
performs on its socket. -/
inductive ZmqOp where
  | connectOp (addr : List Nat)
  | bindOp (addr : List Nat)
  deriving DecidableEq, Repr

/-- Model of `ZMQSignal::set_addr(addr)`:
`(m_server_side) ? m_socket.connect(addr) : m_socket.bind(addr);`. -/
def ZMQSignal.set_addr (s : ZMQState) (addr : List Nat) : ZmqOp :=
  if s.m_server_side then ZmqOp.connectOp addr else ZmqOp.bindOp addr

/-- Effect of one `ZMQSignal::recv()` call: the updated object state, the
number of bytes `memcpy` copies into `_buf`, and the index at which
`_buf[m_msg.size()] = '\0'` is written. -/
structure ZmqRecvEff where
  state : ZMQState
  bytesCopied : Nat
  termIndex : Nat
  deriving DecidableEq, Repr

/-- Model of `ZMQSignal::recv()`: the socket delivers a message `msg`;
`memcpy(_buf, m_msg.data(), m_msg.size())` copies all `msg.length` bytes
with no bound check against `m_buf_size`, then `_buf[m_msg.size()] = '\0'`
and `m_data = _buf`.  As in `SocketSignal.recv`, out-of-bounds stores are
tracked by `bytesCopied` and `termIndex`. -/
def ZMQSignal.recv (msg : List Nat) (s : ZMQState) : ZmqRecvEff :=
  let buf1 : List Nat := msg ++ s._buf.drop msg.length
  let buf2 : List Nat := buf1.set msg.length 0
  { state := { s with _buf := buf2, m_data := cString buf2 },
    bytesCopied := msg.length,
    termIndex := msg.length }

/-- A ZeroMQ message as put on the wire by `ZMQSignal::send`. -/
structure ZmqMsg where
  payload : List Nat
  deriving DecidableEq, Repr

/-- Model of `ZMQSignal::send()`: `m_msg.rebuild(m_data.size())` then
`memcpy(m_msg.data(), m_data.c_str(), m_data.size())`, so the message
payload is exactly the first `m_data.size()` bytes of `m_data`. -/
def ZMQSignal.send (s : ZMQState) : ZmqMsg :=
  ZmqMsg.mk (s.m_data.take s.m_data.length)

/-- Modelled from the spec: the bytes a C `strcpy` of `src` writes into
its destination array (sun_path), namely `src` and one terminating NUL —
`strcpy` itself is a C library routine, not repository code. -/
def strcpyWrites (src : List Nat) : Nat := src.length + 1

/-- All indices `strcpy` stores to lie inside a `SUN_PATH_CAP`-byte
destination array. -/
def strcpyInBounds (src : List Nat) : Prop := strcpyWrites src ≤ SUN_PATH_CAP

instance (src : List Nat) : Decidable (strcpyInBounds src) := by
  unfold strcpyInBounds
  infer_instance

/-- One record as seen by the logic-simulation driver after a `recv`:
the session-alive flag and the two input ports of the galois LFSR.
Modelled from the spec: the record fields and `alive()` accessor live in
sigutils.hpp / galois_lfsr_ports.hpp, which are not under src. -/
structure InRecord where
  alive : Bool
  clock : Bool
  reset : Bool
  deriving DecidableEq, Repr

/-- Modelled from the spec: the driver's port table (galois_lfsr_ports.hpp
is not under src) — a fixed enumeration of the named ports the driver
touches. -/
inductive Port where
  | pid
  | clock
  | reset
  | data_out
  deriving DecidableEq, Repr

/-- Events of the driver process `sc_main` in galois_sock_driver.cpp, in
program order: address setup, SystemC time advance, bridge receive, port
reads, port writes, and bridge send. -/
inductive DrvEv where
  | setAddrE
  | scStartE
  | recvE
  | getClockE
  | getResetE
  | setE (p : Port) (v : Nat)
  | sendE
  deriving DecidableEq, Repr

/-- Is this event an `sc_start` call (the first statement of each loop
iteration)? -/
def DrvEv.isScStartE : DrvEv → Bool
  | DrvEv.scStartE => true
  | _ => false

/-- Is this event a `recv()` call? -/
def DrvEv.isRecvE : DrvEv → Bool
  | DrvEv.recvE => true
  | _ => false

/-- Is this event a `send()` call? -/
def DrvEv.isSendE : DrvEv → Bool
  | DrvEv.sendE => true
  | _ => false

/-- The driver's `while (true)` loop, as the event trace it produces when
the successive `recv()` calls deliver the records `rs`.  Each iteration:
`sc_start(); recv();` then, only if the received record is alive,
`get_clock_pulse(clock); get<bool>(reset); set(data_out, dut output);
send();` and the next iteration; a non-alive record breaks out of the
loop at once.  `dutOut k` is the DUT output observed at iteration `k`. -/
def stepLoop (dutOut : Nat → Nat) : Nat → List InRecord → List DrvEv
  | _, [] => []
  | k, r :: rs =>
    DrvEv.scStartE :: DrvEv.recvE ::
      (if r.alive then
        DrvEv.getClockE :: DrvEv.getResetE ::
          DrvEv.setE Port.data_out (dutOut k) :: DrvEv.sendE ::
          stepLoop dutOut (k + 1) rs
      else [])

/-- The events one alive iteration of the loop contributes, at step `k`. -/
def aliveStepEvents (dutOut : Nat → Nat) (k : Nat) : List DrvEv :=
  [DrvEv.scStartE, DrvEv.recvE, DrvEv.getClockE, DrvEv.getResetE,
    DrvEv.setE Port.data_out (dutOut k), DrvEv.sendE]

/-- The events of a run of alive-only iterations starting at step `k`. -/
def stepLoopAliveEvents (dutOut : Nat → Nat) : Nat → List InRecord → List DrvEv
  | _, [] => []
  | k, _ :: rs => aliveStepEvents dutOut k ++ stepLoopAliveEvents dutOut (k + 1) rs

/-- Model of `sc_main` of galois_sock_driver.cpp as an event trace: construct the
`SocketSignal` client-side, `set_addr(argv[1])`, then the identity
handshake `set(pid ports entry, getpid()); send();`, then the step loop. -/
def scMain (dutOut : Nat → Nat) (pid : Nat) (incoming : List InRecord) :
    List DrvEv :=
  DrvEv.setAddrE :: DrvEv.setE Port.pid pid :: DrvEv.sendE ::
    stepLoop dutOut 0 incoming

/-- Success-path environment used to read off each side's setup role. -/
def okEnv : SockEnv :=
  { bindRes := 0, listenRes := 0, acceptRes := 4, connectRes := 0 }

/-- Does the stream-socket side constructed with flag `b` perform the
binding role?  Read off the `set_addr` trace on the success path. -/
def sockRoleBinds (b : Bool) : Bool :=
  decide (SockOp.bindOp ∈ (SocketSignal.set_addr okEnv (SocketSignal.mkState 3 b) [116]).2)

/-- Does the ZeroMQ side constructed with flag `b` perform the binding
role?  Read off the single `set_addr` operation. -/
def zmqRoleBinds (b : Bool) : Bool :=
  match ZMQSignal.set_addr (ZMQSignal.mkState BUFSIZE b) [116] with
  | ZmqOp.bindOp _ => true
  | ZmqOp.connectOp _ => false

/-- Setup environment in which the bind call fails with `-1` while the
other calls succeed. -/
def C1_env : SockEnv :=
  { bindRes := -1, listenRes := 0, acceptRes := 3, connectRes := 0 }

/-- Server-side `SocketSignal` on descriptor 4, freshly constructed. -/
def C1_state : SocketState := SocketSignal.mkState 4 true

/-- A one-byte socket address. -/
def C1_addr : List Nat := [116]

/-- ZeroMQ state with a five-byte allocated buffer, used in the C4
counterexample. -/
def C4_zstate : ZMQState := ZMQSignal.mkState 5 true

/-- A six-byte incoming ZeroMQ message. -/
def C4_msg : List Nat := [1, 2, 3, 4, 5, 6]

/-- Concrete client-side socket state used in the C4 witness. -/
def C4w_state : SocketState := SocketSignal.mkState 3 false

/-- An alive record delivered before the terminal one. -/
def C6w_alive : InRecord := { alive := true, clock := true, reset := false }

/-- The terminal record, with session-alive false. -/
def C6w_term : InRecord := { alive := false, clock := false, reset := false }

/-- Concrete socket state used in the C9 witness. -/
def C9_s : SocketState := SocketSignal.mkState 3 false

/-- Concrete ZeroMQ state used in the C9 witness. -/
def C9_zs : ZMQState := ZMQSignal.mkState 5 false

/-- The socket calls `set_addr` performs, with the `perror` reports
filtered out, are the full setup schedule of the respective side,
whatever the call results are. -/
lemma set_addr_filter_ops (env : SockEnv) (s : SocketState) (addr : List Nat) :
    ((SocketSignal.set_addr env s addr).2.filter (fun o => ! o.isPerror)) =
      (if s.m_server_side then [SockOp.bindOp, SockOp.listenOp 5, SockOp.acceptOp]
       else [SockOp.connectOp]) := by
  by_cases hs : s.m_server_side = true <;>
    simp only [SocketSignal.set_addr, hs, Bool.false_eq_true, if_true, if_false,
      Bool.not_eq_true] <;>
    split_ifs <;>
    simp [SockOp.isPerror]

/-- Claim C1 counterexample: with the `bind` call failing (result `-1`),
`set_addr` reports the failure but still performs `listen` and `accept`,
stores the accepted descriptor into `m_rd_socket`, and a subsequent
`send` writes to that descriptor exactly as if setup had succeeded —
the setup failure is reported but not fatal, and the operation continues. -/
theorem C1_counterexample :
    C1_env.bindRes < 0 ∧
    SockOp.perrorOp "Bind failed\n" ∈ (SocketSignal.set_addr C1_env C1_state C1_addr).2 ∧
    SockOp.listenOp 5 ∈ (SocketSignal.set_addr C1_env C1_state C1_addr).2 ∧
    SockOp.acceptOp ∈ (SocketSignal.set_addr C1_env C1_state C1_addr).2 ∧
    (SocketSignal.set_addr C1_env C1_state C1_addr).1.m_rd_socket = 3 ∧
    SocketSignal.send (SocketSignal.set_addr C1_env C1_state C1_addr).1 =
      [SockOp.writeOp 3 0] := by
  decide

/-- Claim C1 (amended): every address/socket setup failure in
`SocketSignal::set_addr` is reported to the operator with the failing
operation named, but it is not fatal: whatever the call results, the full
setup schedule still runs (`bind`, `listen 5`, `accept` on the server
side; `connect` on the client side) and the state is updated as on
success, so the session continues as if setup had succeeded. -/
theorem C1_reported_not_fatal (env : SockEnv) (s : SocketState) (addr : List Nat) :
    (s.m_server_side = true →
      ((SocketSignal.set_addr env s addr).2.filter (fun o => ! o.isPerror)) =
        [SockOp.bindOp, SockOp.listenOp 5, SockOp.acceptOp]) ∧
    (s.m_server_side = false →
      ((SocketSignal.set_addr env s addr).2.filter (fun o => ! o.isPerror)) =
        [SockOp.connectOp]) ∧
    (s.m_server_side = true → env.bindRes < 0 →
      SockOp.perrorOp "Bind failed\n" ∈ (SocketSignal.set_addr env s addr).2) ∧
    (s.m_server_side = true → env.listenRes < 0 →
      SockOp.perrorOp "Socket listen\n" ∈ (SocketSignal.set_addr env s addr).2) ∧
    (s.m_server_side = true → env.acceptRes < 0 →
      SockOp.perrorOp "Accept failed\n" ∈ (SocketSignal.set_addr env s addr).2) ∧
    (s.m_server_side = false → env.connectRes < 0 →
      SockOp.perrorOp "Connection failed\n" ∈ (SocketSignal.set_addr env s addr).2) ∧
    (SocketSignal.set_addr env s addr).1.m_rd_socket =
      (if s.m_server_side then env.acceptRes else s.m_rd_socket) := by
  refine ⟨?_, ?_, ?_, ?_, ?_, ?_, ?_⟩
  · intro hs; rw [set_addr_filter_ops]; simp [hs]
  · intro hs; rw [set_addr_filter_ops]; simp [hs]
  · intro hs hb; simp [SocketSignal.set_addr, hs, hb]
  · intro hs hl; simp [SocketSignal.set_addr, hs, hl]
  · intro hs ha; simp [SocketSignal.set_addr, hs, ha]
  · intro hs hc; simp [SocketSignal.set_addr, hs, hc]
  · by_cases hs : s.m_server_side = true <;> simp [SocketSignal.set_addr, hs]

/-- Witness for the C1 amended theorem: at a concrete failing bind, the
failure report appears in the trace. -/
theorem C1_reported_not_fatal_witness :
    SockOp.perrorOp "Bind failed\n" ∈ (SocketSignal.set_addr C1_env C1_state C1_addr).2 :=
  (C1_reported_not_fatal C1_env C1_state C1_addr).2.2.1 rfl (by decide)

/-- Claim C2 counterexample: for the server-marked side, the stream-socket
transport performs the binding role but the ZeroMQ transport does not —
the role pairing is not symmetric across the two backends. -/
theorem C2_counterexample :
    sockRoleBinds true = true ∧ zmqRoleBinds true = false ∧
    sockRoleBinds true ≠ zmqRoleBinds true := by
  decide

/-- Claim C2 (amended): in the stream-socket transport the server-marked
side binds (and never connects) while the client-marked side connects
(and never binds); in the ZeroMQ transport the pairing is inverted — the
server-marked side connects and the client-marked side binds. -/
theorem C2_roles_per_backend (env : SockEnv) (s : SocketState) (addr : List Nat)
    (zs : ZMQState) (zaddr : List Nat) :
    (s.m_server_side = true →
      SockOp.bindOp ∈ (SocketSignal.set_addr env s addr).2 ∧
      SockOp.connectOp ∉ (SocketSignal.set_addr env s addr).2) ∧
    (s.m_server_side = false →
      SockOp.connectOp ∈ (SocketSignal.set_addr env s addr).2 ∧
      SockOp.bindOp ∉ (SocketSignal.set_addr env s addr).2) ∧
    (zs.m_server_side = true → ZMQSignal.set_addr zs zaddr = ZmqOp.connectOp zaddr) ∧
    (zs.m_server_side = false → ZMQSignal.set_addr zs zaddr = ZmqOp.bindOp zaddr) := by
  refine ⟨?_, ?_, ?_, ?_⟩
  · intro hs
    constructor <;>
      (simp only [SocketSignal.set_addr, hs, if_true]; split_ifs <;> simp)
  · intro hs
    constructor <;>
      (simp only [SocketSignal.set_addr, hs, Bool.false_eq_true, if_false];
        split_ifs <;> simp)
  · intro hs; simp [ZMQSignal.set_addr, hs]
  · intro hs; simp [ZMQSignal.set_addr, hs]

/-- Witness for the C2 amended theorem at concrete endpoints of each
backend. -/
theorem C2_roles_per_backend_witness :
    SockOp.bindOp ∈
      (SocketSignal.set_addr okEnv (SocketSignal.mkState 3 true) [116]).2 ∧
    ZMQSignal.set_addr (ZMQSignal.mkState BUFSIZE true) [117] = ZmqOp.connectOp [117] :=
  ⟨((C2_roles_per_backend okEnv (SocketSignal.mkState 3 true) [116]
      (ZMQSignal.mkState BUFSIZE true) [117]).1 rfl).1,
   (C2_roles_per_backend okEnv (SocketSignal.mkState 3 true) [116]
      (ZMQSignal.mkState BUFSIZE true) [117]).2.2.1 rfl⟩

/-- Claim C3: in the ZeroMQ transport, `set_addr` on the server-marked
side performs `connect` on the given address and on the client-marked
side performs `bind` — the inversion of the usual naming intuition. -/
theorem C3_zmq_inverted (zs : ZMQState) (addr : List Nat) :
    (zs.m_server_side = true → ZMQSignal.set_addr zs addr = ZmqOp.connectOp addr) ∧
    (zs.m_server_side = false → ZMQSignal.set_addr zs addr = ZmqOp.bindOp addr) := by
  constructor <;> intro hs <;> simp [ZMQSignal.set_addr, hs]

/-- Witness for C3 at a concrete server-marked and client-marked endpoint. -/
theorem C3_zmq_inverted_witness :
    ZMQSignal.set_addr (ZMQSignal.mkState BUFSIZE true) [116] = ZmqOp.connectOp [116] ∧
    ZMQSignal.set_addr (ZMQSignal.mkState BUFSIZE false) [116] = ZmqOp.bindOp [116] :=
  ⟨(C3_zmq_inverted (ZMQSignal.mkState BUFSIZE true) [116]).1 rfl,
   (C3_zmq_inverted (ZMQSignal.mkState BUFSIZE false) [116]).2 rfl⟩

/-- Claim C5: in the stream-socket transport, the server-marked side
binds, listens with constant backlog 5, accepts exactly one connection,
and then both `send` and `recv` use the accepted descriptor stored in
`m_rd_socket` (not the listening descriptor `m_socket`); the client-marked
side connects directly and uses its own descriptor `m_socket` for all
I/O. -/
theorem C5_socket_roles (env : SockEnv) (s : SocketState) (addr : List Nat)
    (readRes : Int) (incoming : List Nat) :
    (s.m_server_side = true →
      ((SocketSignal.set_addr env s addr).2.filter (fun o => ! o.isPerror)) =
        [SockOp.bindOp, SockOp.listenOp 5, SockOp.acceptOp] ∧
      (SocketSignal.set_addr env s addr).1.m_rd_socket = env.acceptRes ∧
      SocketSignal.send (SocketSignal.set_addr env s addr).1 =
        [SockOp.writeOp env.acceptRes s.m_data.length] ∧
      (SocketSignal.recv readRes incoming (SocketSignal.set_addr env s addr).1).fd =
        env.acceptRes) ∧
    (s.m_server_side = false →
      ((SocketSignal.set_addr env s addr).2.filter (fun o => ! o.isPerror)) =
        [SockOp.connectOp] ∧
      (SocketSignal.set_addr env s addr).1.m_socket = s.m_socket ∧
      SocketSignal.send (SocketSignal.set_addr env s addr).1 =
        [SockOp.writeOp s.m_socket s.m_data.length] ∧
      (SocketSignal.recv readRes incoming (SocketSignal.set_addr env s addr).1).fd =
        s.m_socket) := by
  constructor
  · intro hs
    refine ⟨?_, ?_, ?_, ?_⟩
    · rw [set_addr_filter_ops]; simp [hs]
    · simp [SocketSignal.set_addr, hs]
    · simp [SocketSignal.set_addr, SocketSignal.send, hs]
    · simp [SocketSignal.set_addr, SocketSignal.recv, hs]
  · intro hs
    refine ⟨?_, ?_, ?_, ?_⟩
    · rw [set_addr_filter_ops]; simp [hs]
    · simp [SocketSignal.set_addr, hs]
    · simp [SocketSignal.set_addr, SocketSignal.send, hs]
    · simp [SocketSignal.set_addr, SocketSignal.recv, hs]

/-- Witness for C5 on a concrete server-side and client-side endpoint. -/
theorem C5_socket_roles_witness :
    ((SocketSignal.set_addr okEnv (SocketSignal.mkState 3 true) [116]).2.filter
        (fun o => ! o.isPerror)) =
      [SockOp.bindOp, SockOp.listenOp 5, SockOp.acceptOp] ∧
    (SocketSignal.recv 2 [7, 8] (SocketSignal.set_addr okEnv
        (SocketSignal.mkState 9 false) [116]).1).fd = 9 :=
  ⟨((C5_socket_roles okEnv (SocketSignal.mkState 3 true) [116] 2 [7, 8]).1 rfl).1,
   ((C5_socket_roles okEnv (SocketSignal.mkState 9 false) [116] 2 [7, 8]).2 rfl).2.2.2⟩

/-- Claim C10: `SocketSignal::set_addr` copies the caller's address into
the `SUN_PATH_CAP`-byte `sun_path` field with an unguarded `strcpy`: the
full address is stored whatever its length (no truncation), the copy
writes `length + 1` bytes and stays within bounds exactly when the
address is strictly shorter than the capacity, and no check is performed
— the operation trace does not depend on the address at all. -/
theorem C10_strcpy_unguarded (env : SockEnv) (s : SocketState)
    (addr addr2 : List Nat) :
    (SocketSignal.set_addr env s addr).1.sun_path = addr ∧
    strcpyWrites addr = addr.length + 1 ∧
    (strcpyInBounds addr ↔ addr.length < SUN_PATH_CAP) ∧
    (SocketSignal.set_addr env s addr).2 = (SocketSignal.set_addr env s addr2).2 := by
  refine ⟨?_, rfl, ?_, ?_⟩
  · by_cases hs : s.m_server_side = true <;> simp [SocketSignal.set_addr, hs]
  · unfold strcpyInBounds strcpyWrites SUN_PATH_CAP
    omega
  · by_cases hs : s.m_server_side = true <;> simp [SocketSignal.set_addr, hs]

/-- Claim C8: on both transports each send transmits exactly the current
encoded record's byte length — the stream-socket `send` is a single
`write` whose count is `m_data.size()`, and the ZeroMQ `send` builds a
message whose payload is exactly `m_data` — with no length prefix or
other framing added. -/
theorem C8_send_exact_length (s : SocketState) (zs : ZMQState) :
    (SocketSignal.send s).length = 1 ∧
    SocketSignal.send s =
      [SockOp.writeOp (if s.m_server_side then s.m_rd_socket else s.m_socket)
        s.m_data.length] ∧
    (ZMQSignal.send zs).payload.length = zs.m_data.length ∧
    (ZMQSignal.send zs).payload = zs.m_data := by
  refine ⟨rfl, rfl, ?_, ?_⟩ <;> simp [ZMQSignal.send]

/-- Claim C9: the index of the terminator store after a `recv` is within
the receive buffer exactly when the receive result is non-negative and
strictly below the capacity; a full-capacity socket read (`BUFSIZE`), a
failed socket read (`-1`, cast to `size_t` as `2 ^ 64 - 1`), and a ZeroMQ
message at least as large as the allocated buffer all put the terminator
store out of bounds. -/
theorem C9_terminator_bounds (readRes : Int) (incoming : List Nat)
    (s : SocketState) (zmsg : List Nat) (zs : ZMQState)
    (h1 : -1 ≤ readRes) (h2 : readRes ≤ (BUFSIZE : Int)) :
    ((SocketSignal.recv readRes incoming s).termIndex < BUFSIZE ↔
      0 ≤ readRes ∧ readRes < (BUFSIZE : Int)) ∧
    (SocketSignal.recv (-1) incoming s).termIndex = 2 ^ 64 - 1 ∧
    (SocketSignal.recv (BUFSIZE : Int) incoming s).termIndex = BUFSIZE ∧
    ((ZMQSignal.recv zmsg zs).termIndex < zs.m_buf_size ↔
      zmsg.length < zs.m_buf_size) := by
  have h2a : readRes ≤ 5 := by simpa [BUFSIZE] using h2
  refine ⟨?_, ?_, ?_, Iff.rfl⟩
  · interval_cases readRes <;> simp [SocketSignal.recv] <;> decide
  · simp [SocketSignal.recv]; decide
  · simp [SocketSignal.recv]; decide

/-- Witness for C9 at read result `2` and a six-byte ZeroMQ message. -/
theorem C9_terminator_bounds_witness :
    ((SocketSignal.recv 2 [7, 7] C9_s).termIndex < BUFSIZE ↔
      0 ≤ (2 : Int) ∧ (2 : Int) < (BUFSIZE : Int)) ∧
    (SocketSignal.recv (-1) [7, 7] C9_s).termIndex = 2 ^ 64 - 1 ∧
    (SocketSignal.recv (BUFSIZE : Int) [7, 7] C9_s).termIndex = BUFSIZE ∧
    ((ZMQSignal.recv [7, 7, 7, 7, 7, 7] C9_zs).termIndex < C9_zs.m_buf_size ↔
      [7, 7, 7, 7, 7, 7].length < C9_zs.m_buf_size) :=
  C9_terminator_bounds 2 [7, 7] C9_s [7, 7, 7, 7, 7, 7] C9_zs
    (by decide) (by decide)

/-- Setting the element at the boundary index between the two halves of an
append rewrites the head of the right half. -/
lemma set_append_left_length (A B : List Nat) (v : Nat) :
    (A ++ B).set A.length v = A ++ B.set 0 v := by
  induction A with
  | nil => simp
  | cons a t ih => simp [List.set_cons_succ, ih]

/-- Variant of `set_append_left_length` stated for any index equal to the left
half's length. -/
lemma set_append_of_length_eq (A B : List Nat) (n v : Nat) (h : A.length = n) :
    (A ++ B).set n v = A ++ B.set 0 v := by
  subst h
  exact set_append_left_length A B v

/-- Setting index 0 of a non-empty list replaces its head. -/
lemma set_zero_of_ne_nil (B : List Nat) (v : Nat) (h : B ≠ []) :
    B.set 0 v = v :: B.tail := by
  cases B with
  | nil => exact absurd rfl h
  | cons b t => rfl

/-- Claim C4 counterexample: a ZeroMQ `recv` of a six-byte message into a
five-byte allocated buffer copies all six bytes and writes the terminator
at index 6 — the receive is not bounded by the fixed buffer capacity, so
the claim that each recv reads at most the capacity fails. -/
theorem C4_counterexample :
    (ZMQSignal.recv C4_msg C4_zstate).bytesCopied = 6 ∧
    C4_zstate.m_buf_size = 5 ∧
    ¬ ((ZMQSignal.recv C4_msg C4_zstate).bytesCopied ≤ C4_zstate.m_buf_size) ∧
    ¬ ((ZMQSignal.recv C4_msg C4_zstate).termIndex < C4_zstate.m_buf_size) := by
  decide

/-- Claim C4 (amended): after every `recv` on either transport a single
terminator byte is written at the index equal to the receive count (the
`read` result cast to `size_t` for the socket transport, the message size
for the ZeroMQ transport), so whenever that store is in bounds the raw
buffer holds the transferred bytes followed immediately by the
terminator, a logical length of count plus one.  The stream-socket `recv`
passes the fixed capacity `BUFSIZE` to `read`; the ZeroMQ `recv` copies
the full message size with no bound from the allocated capacity. -/
theorem C4_recv_terminator (s : SocketState) (readRes : Int)
    (incoming : List Nat) (zs : ZMQState) (zmsg : List Nat) :
    (SocketSignal.recv readRes incoming s).readCount = BUFSIZE ∧
    (SocketSignal.recv readRes incoming s).termIndex = toSizeT readRes ∧
    (ZMQSignal.recv zmsg zs).bytesCopied = zmsg.length ∧
    (ZMQSignal.recv zmsg zs).termIndex = zmsg.length ∧
    (0 ≤ readRes → readRes ≤ (BUFSIZE : Int) → toSizeT readRes < BUFSIZE →
      s.m_buf.length = BUFSIZE → toSizeT readRes ≤ incoming.length →
      (SocketSignal.recv readRes incoming s).state.m_buf =
        incoming.take (toSizeT readRes) ++ 0 :: s.m_buf.drop (toSizeT readRes + 1)) := by
  refine ⟨rfl, rfl, rfl, rfl, ?_⟩
  intro h0 hub hlt hbuf hinc
  have hlt2 : readRes < (SIZE_T_MOD : Int) := by
    have hb : ((BUFSIZE : Nat) : Int) < (SIZE_T_MOD : Int) := by decide
    exact lt_of_le_of_lt hub hb
  have hts : toSizeT readRes = readRes.toNat := by
    unfold toSizeT
    rw [Int.emod_eq_of_lt h0 hlt2]
  rw [hts] at hlt hinc ⊢
  have hmin : min readRes.toNat BUFSIZE = readRes.toNat :=
    Nat.min_eq_left (Nat.le_of_lt hlt)
  have hlen : (incoming.take readRes.toNat).length = readRes.toNat := by
    rw [List.length_take]
    exact Nat.min_eq_left hinc
  have hBlen : (s.m_buf.drop readRes.toNat).length = BUFSIZE - readRes.toNat := by
    rw [List.length_drop, hbuf]
  have hBne : s.m_buf.drop readRes.toNat ≠ [] := by
    apply List.ne_nil_of_length_pos
    rw [hBlen]
    omega
  simp only [SocketSignal.recv, hts, if_pos h0, hmin]
  rw [set_append_of_length_eq _ _ _ _ hlen, set_zero_of_ne_nil _ _ hBne,
    List.tail_drop]

/-- Witness for the C4 amended theorem: a two-byte receive into the fresh
buffer leaves the two received bytes, the terminator, and the untouched
tail. -/
theorem C4_recv_terminator_witness :
    (SocketSignal.recv 2 [7, 8, 9] C4w_state).state.m_buf =
      [7, 8, 9].take (toSizeT 2) ++ 0 :: C4w_state.m_buf.drop (toSizeT 2 + 1) :=
  (C4_recv_terminator C4w_state 2 [7, 8, 9] (ZMQSignal.mkState 5 false) [1]).2.2.2.2
    (by decide) (by decide) (by decide) (by decide) (by decide)

/-- Running the driver loop over a prefix of alive records emits the
per-iteration event block for each of them and then continues with the
rest of the incoming records. -/
lemma stepLoop_alive_run (dutOut : Nat → Nat) (k : Nat)
    (pre rest : List InRecord) (hpre : ∀ r ∈ pre, r.alive = true) :
    stepLoop dutOut k (pre ++ rest) =
      stepLoopAliveEvents dutOut k pre ++ stepLoop dutOut (k + pre.length) rest := by
  induction pre generalizing k with
  | nil => simp [stepLoopAliveEvents]
  | cons r rs ih =>
    have hr : r.alive = true := hpre r (List.mem_cons_self r rs)
    have ih2 := ih (k + 1) (fun x hx => hpre x (List.mem_cons_of_mem r hx))
    have harith : k + 1 + rs.length = k + (rs.length + 1) := by omega
    simp only [List.cons_append, stepLoop, hr, if_true, stepLoopAliveEvents,
      aliveStepEvents, List.length_cons, List.cons_append, List.append_assoc,
      List.nil_append, List.append_eq]
    rw [← harith, ih2]

/-- Each alive iteration contributes exactly one `recv` event. -/
lemma countRecv_stepLoopAliveEvents (dutOut : Nat → Nat) (k : Nat)
    (pre : List InRecord) :
    (stepLoopAliveEvents dutOut k pre).countP DrvEv.isRecvE = pre.length := by
  induction pre generalizing k with
  | nil => rfl
  | cons r rs ih =>
    simp [stepLoopAliveEvents, aliveStepEvents, List.countP_append, ih,
      List.countP_cons, DrvEv.isRecvE]

/-- Each alive iteration contributes exactly one `send` event. -/
lemma countSend_stepLoopAliveEvents (dutOut : Nat → Nat) (k : Nat)
    (pre : List InRecord) :
    (stepLoopAliveEvents dutOut k pre).countP DrvEv.isSendE = pre.length := by
  induction pre generalizing k with
  | nil => rfl
  | cons r rs ih =>
    simp [stepLoopAliveEvents, aliveStepEvents, List.countP_append, ih,
      List.countP_cons, DrvEv.isSendE]

/-- Claim C6: once the orchestrator delivers a record with session-alive
false, the driver loop performs exactly one corresponding `recv` (one
more than the number of alive records before it), emits no `send` for
that terminal record (its send count equals the number of alive records),
ends its trace at that `recv`, and consumes nothing delivered after the
terminal record. -/
theorem C6_terminal_recv_no_send (dutOut : Nat → Nat) (k : Nat)
    (pre : List InRecord) (term : InRecord) (post : List InRecord)
    (hpre : ∀ r ∈ pre, r.alive = true) (hterm : term.alive = false) :
    stepLoop dutOut k (pre ++ term :: post) = stepLoop dutOut k (pre ++ [term]) ∧
    (stepLoop dutOut k (pre ++ term :: post)).countP DrvEv.isRecvE =
      pre.length + 1 ∧
    (stepLoop dutOut k (pre ++ term :: post)).countP DrvEv.isSendE = pre.length ∧
    (stepLoop dutOut k (pre ++ term :: post)).getLast? = some DrvEv.recvE := by
  have hmain : stepLoop dutOut k (pre ++ term :: post) =
      stepLoopAliveEvents dutOut k pre ++ [DrvEv.scStartE, DrvEv.recvE] := by
    rw [stepLoop_alive_run dutOut k pre (term :: post) hpre]
    simp [stepLoop, hterm]
  have hmain2 : stepLoop dutOut k (pre ++ [term]) =
      stepLoopAliveEvents dutOut k pre ++ [DrvEv.scStartE, DrvEv.recvE] := by
    rw [stepLoop_alive_run dutOut k pre [term] hpre]
    simp [stepLoop, hterm]
  refine ⟨hmain.trans hmain2.symm, ?_, ?_, ?_⟩
  · rw [hmain, List.countP_append, countRecv_stepLoopAliveEvents]
    simp [List.countP_cons, DrvEv.isRecvE]
  · rw [hmain, List.countP_append, countSend_stepLoopAliveEvents]
    simp [List.countP_cons, DrvEv.isSendE]
  · rw [hmain, List.getLast?_append_of_ne_nil _ (by simp)]
    rfl

/-- Witness for C6: one alive step, then the terminal record, with one
further record behind it that is never consumed. -/
theorem C6_terminal_recv_no_send_witness :
    stepLoop (fun _ => 0) 0 ([C6w_alive] ++ C6w_term :: [C6w_alive]) =
      stepLoop (fun _ => 0) 0 ([C6w_alive] ++ [C6w_term]) ∧
    (stepLoop (fun _ => 0) 0 ([C6w_alive] ++ C6w_term :: [C6w_alive])).countP
      DrvEv.isRecvE = [C6w_alive].length + 1 ∧
    (stepLoop (fun _ => 0) 0 ([C6w_alive] ++ C6w_term :: [C6w_alive])).countP
      DrvEv.isSendE = [C6w_alive].length ∧
    (stepLoop (fun _ => 0) 0 ([C6w_alive] ++ C6w_term :: [C6w_alive])).getLast? =
      some DrvEv.recvE :=
  C6_terminal_recv_no_send (fun _ => 0) 0 [C6w_alive] C6w_term [C6w_alive]
    (by decide) (by decide)

/-- Claim C7: the driver performs exactly one identity-handshake exchange
before entering the step loop — everything it does before the first
`sc_start` of the loop is `set_addr`, then a `set` of the reserved
process-id port to its own process id, then a single `send`, and that
`send` is the same event the steady-state iterations emit (there is no
separate handshake operation). -/
theorem C7_single_handshake (dutOut : Nat → Nat) (pid : Nat)
    (incoming : List InRecord) :
    ((scMain dutOut pid incoming).takeWhile (fun e => ! e.isScStartE) =
      [DrvEv.setAddrE, DrvEv.setE Port.pid pid, DrvEv.sendE]) ∧
    (((scMain dutOut pid incoming).takeWhile (fun e => ! e.isScStartE)).countP
      DrvEv.isSendE = 1) := by
  cases incoming with
  | nil => exact ⟨rfl, rfl⟩
  | cons r rs => exact ⟨rfl, rfl⟩

end SIT
